import Mathlib

/-!
# Verification of the real-pulse-flow messaging application

Shallow embedding of the repository's data model, row-level security (RLS)
policies and client-side message handling, together with proofs of the
spec's testable properties.

Sources embedded here:
* `supabase/migrations/20250727014921-*.sql` — table schemas, CHECK
  constraints, the original RLS policies;
* `supabase/migrations/20250802115224_*.sql` — the replacement (non-recursive)
  `conversation_participants` policies and the two SECURITY DEFINER lookup
  functions `is_conversation_participant` / `is_conversation_creator`;
* the chat page component (`uploadImage`, `sendMessage`, `subscribeToMessages`
  insert handler, `createConversationWithUser`, `fetchOnlineUsers`,
  `isUserOnline`, `getConversationName`, `startVideoCall`).

Identities (`auth.uid()`) and row identifiers are modelled as `Nat`;
timestamps as `Int` milliseconds. Nullable SQL text columns are
`Option String`. Backend-generated defaults (`gen_random_uuid()` primary
keys, `joined_at`) that no policy or claim reads are not carried on the
participant rows.
-/

namespace RealPulseFlow

/-- A row of `public.conversations` (migration 20250727014921):
`id`, nullable `name`, `is_group` (default false), `created_by`. -/
structure ConversationRow where
  id : Nat
  name : Option String
  is_group : Bool
  created_by : Nat
  deriving Repr, DecidableEq

/-- A row of `public.conversation_participants`: the `(conversation_id, user_id)`
join pair. The backend-generated `id` and `joined_at` columns are read by no
policy or client path and are omitted. -/
structure ParticipantRow where
  conversation_id : Nat
  user_id : Nat
  deriving Repr, DecidableEq

/-- A row of `public.messages`: `id`, `conversation_id`, `sender_id`, nullable
`content`, nullable `image_url`, `message_type` (subject to a CHECK
constraint), `created_at`. -/
structure MessageRow where
  id : Nat
  conversation_id : Nat
  sender_id : Nat
  content : Option String
  image_url : Option String
  message_type : String
  created_at : Int
  deriving Repr, DecidableEq

/-- A row of `public.profiles` (with the `last_seen` column added by the later
migration for presence). -/
structure ProfileRow where
  id : Nat
  user_id : Nat
  username : Option String
  display_name : Option String
  avatar_url : Option String
  bio : Option String
  last_seen : Int
  deriving Repr, DecidableEq

/-- The database state: the four application tables. -/
structure Db where
  profiles : List ProfileRow
  conversations : List ConversationRow
  participants : List ParticipantRow
  messages : List MessageRow
  deriving Repr

/-- The CHECK constraint on `messages.message_type`:
`CHECK (message_type IN ('text', 'image'))`. -/
def message_type_check (t : String) : Bool :=
  t == "text" || t == "image"

/-- SQL function `public.is_conversation_participant(conversation_uuid, user_uuid)`
(migration 20250802115224): EXISTS a participant row with the given
conversation and user. -/
def is_conversation_participant (parts : List ParticipantRow)
    (conversation_uuid user_uuid : Nat) : Bool :=
  parts.any fun p => p.conversation_id == conversation_uuid && p.user_id == user_uuid

/-- SQL function `public.is_conversation_creator(conversation_uuid, user_uuid)`
(migration 20250802115224): EXISTS a conversation row with the given id and
creator. -/
def is_conversation_creator (convs : List ConversationRow)
    (conversation_uuid user_uuid : Nat) : Bool :=
  convs.any fun c => c.id == conversation_uuid && c.created_by == user_uuid

/-- SQL commands a row-level policy can gate. -/
inductive Cmd
  | select
  | insert
  | update
  | delete
  deriving Repr, DecidableEq, BEq

/-- A row of any of the four application tables, for feeding to a policy
predicate. -/
inductive Row
  | prof (p : ProfileRow)
  | conv (c : ConversationRow)
  | part (p : ParticipantRow)
  | msg (m : MessageRow)

/-- One `CREATE POLICY` statement: its name, target table, command, and the
USING/WITH CHECK predicate evaluated against the caller identity, the
database state and the candidate row. -/
structure Policy where
  pname : String
  table : String
  cmd : Cmd
  check : Nat → Db → Row → Bool

/-- The RLS policies on the four application tables after all migrations have
run (the two recursive `conversation_participants` policies of the first
migration were dropped and replaced by the second migration). Storage-bucket
policies live on `storage.objects` and are outside this model. -/
def chatPolicies : List Policy :=
  [ { pname := "Profiles are viewable by everyone", table := "profiles", cmd := .select,
      check := fun _ _ r => match r with | .prof _ => true | _ => false },
    { pname := "Users can update their own profile", table := "profiles", cmd := .update,
      check := fun uid _ r => match r with | .prof p => uid == p.user_id | _ => false },
    { pname := "Users can insert their own profile", table := "profiles", cmd := .insert,
      check := fun uid _ r => match r with | .prof p => uid == p.user_id | _ => false },
    { pname := "Users can view conversations they participate in", table := "conversations", cmd := .select,
      check := fun uid db r => match r with
        | .conv c => db.participants.any fun q => q.conversation_id == c.id && q.user_id == uid
        | _ => false },
    { pname := "Users can create conversations", table := "conversations", cmd := .insert,
      check := fun uid _ r => match r with | .conv c => uid == c.created_by | _ => false },
    { pname := "Users can view participants of conversations they participate in",
      table := "conversation_participants", cmd := .select,
      check := fun uid db r => match r with
        | .part p => is_conversation_participant db.participants p.conversation_id uid
        | _ => false },
    { pname := "Users can add participants to conversations they created",
      table := "conversation_participants", cmd := .insert,
      check := fun uid db r => match r with
        | .part p => is_conversation_creator db.conversations p.conversation_id uid
        | _ => false },
    { pname := "Users can add themselves as participants",
      table := "conversation_participants", cmd := .insert,
      check := fun uid _ r => match r with | .part p => uid == p.user_id | _ => false },
    { pname := "Users can view messages in their conversations", table := "messages", cmd := .select,
      check := fun uid db r => match r with
        | .msg m => db.participants.any fun q => q.conversation_id == m.conversation_id && q.user_id == uid
        | _ => false },
    { pname := "Users can send messages to their conversations", table := "messages", cmd := .insert,
      check := fun uid db r => match r with
        | .msg m => uid == m.sender_id &&
            (db.participants.any fun q => q.conversation_id == m.conversation_id && q.user_id == uid)
        | _ => false } ]

/-- Postgres RLS semantics for permissive policies: an operation on a row is
allowed iff some policy for that table and command has a true predicate; with
RLS enabled and no matching policy the operation is denied. -/
def rlsAllows (uid : Nat) (db : Db) (table : String) (c : Cmd) (r : Row) : Bool :=
  chatPolicies.any fun pol => pol.table == table && pol.cmd == c && pol.check uid db r

/-- Claim C1: For every authenticated identity `uid` and message row `m`, the RLS
layer permits INSERT of `m` iff `m.sender_id = uid` and `uid` is a participant
of `m`'s conversation ("Users can send messages to their conversations"); in
particular any insert whose sender is not `uid` is rejected. -/
theorem message_insert_policy (uid : Nat) (db : Db) (m : MessageRow) :
    (rlsAllows uid db "messages" .insert (.msg m) = true ↔
      uid = m.sender_id ∧
        is_conversation_participant db.participants m.conversation_id uid = true) ∧
    (uid ≠ m.sender_id → rlsAllows uid db "messages" .insert (.msg m) = false) := by
  have h : rlsAllows uid db "messages" .insert (.msg m) = true ↔
      uid = m.sender_id ∧
        is_conversation_participant db.participants m.conversation_id uid = true := by
    simp +decide [rlsAllows, chatPolicies, is_conversation_participant]
  refine ⟨h, fun hne => ?_⟩
  by_contra hcon
  exact hne (h.mp (by simpa using hcon)).1

/-- Witness for `message_insert_policy`: the caller with id 1 may not insert a
message whose sender field is 2. -/
theorem message_insert_policy_witness :
    rlsAllows 1 ⟨[], [], [⟨7, 1⟩], []⟩ "messages" .insert
      (.msg ⟨0, 7, 2, some "hi", none, "text", 0⟩) = false :=
  (message_insert_policy 1 ⟨[], [], [⟨7, 1⟩], []⟩
      ⟨0, 7, 2, some "hi", none, "text", 0⟩).2 (by decide)

/-- Claim C2: If identity `uid` is not a participant of conversation `c`, the RLS
layer denies SELECT of every `messages` row and every
`conversation_participants` row belonging to `c`: such rows are visible only
to participants of the same conversation. -/
theorem non_participant_cannot_read (uid : Nat) (db : Db) (c : Nat)
    (h : is_conversation_participant db.participants c uid = false) :
    (∀ m : MessageRow, m.conversation_id = c →
      rlsAllows uid db "messages" .select (.msg m) = false) ∧
    (∀ p : ParticipantRow, p.conversation_id = c →
      rlsAllows uid db "conversation_participants" .select (.part p) = false) := by
  simp only [is_conversation_participant, List.any_eq_false] at h
  constructor
  · intro m hm
    simp +decide [rlsAllows, chatPolicies, List.any_eq_false]
    intro q hq
    subst hm
    simpa using h q hq
  · intro p hp
    simp +decide [rlsAllows, chatPolicies, is_conversation_participant,
      List.any_eq_false]
    intro q hq
    subst hp
    simpa using h q hq

/-- Witness for `non_participant_cannot_read`: identity 2 is no participant of
conversation 7 (whose only participant is 1) and cannot read its message row
or its participant row. -/
theorem non_participant_cannot_read_witness :
    rlsAllows 2 ⟨[], [], [⟨7, 1⟩], [⟨0, 7, 1, some "hi", none, "text", 0⟩]⟩
      "messages" .select (.msg ⟨0, 7, 1, some "hi", none, "text", 0⟩) = false ∧
    rlsAllows 2 ⟨[], [], [⟨7, 1⟩], [⟨0, 7, 1, some "hi", none, "text", 0⟩]⟩
      "conversation_participants" .select (.part ⟨7, 1⟩) = false := by
  have h := non_participant_cannot_read 2
    ⟨[], [], [⟨7, 1⟩], [⟨0, 7, 1, some "hi", none, "text", 0⟩]⟩ 7 (by decide)
  exact ⟨h.1 ⟨0, 7, 1, some "hi", none, "text", 0⟩ rfl, h.2 ⟨7, 1⟩ rfl⟩

/-- Claim C8: No UPDATE or DELETE policy exists for `messages`, `conversations`
or `conversation_participants`, so with RLS enabled every UPDATE or DELETE
attempt on these tables by any identity against any row is denied (and hence
leaves the stored rows unchanged); message rows are immutable once created. -/
theorem no_update_delete_on_chat_tables (uid : Nat) (db : Db) (r : Row) :
    rlsAllows uid db "messages" .update r = false ∧
    rlsAllows uid db "messages" .delete r = false ∧
    rlsAllows uid db "conversations" .update r = false ∧
    rlsAllows uid db "conversations" .delete r = false ∧
    rlsAllows uid db "conversation_participants" .update r = false ∧
    rlsAllows uid db "conversation_participants" .delete r = false := by
  refine ⟨?_, ?_, ?_, ?_, ?_, ?_⟩ <;> simp +decide [rlsAllows, chatPolicies]

/-- The UNIQUE(conversation_id, user_id) constraint on
`conversation_participants`: an insert is rejected (returning `none`, the
table unchanged) when a row with the same pair is already present, and
otherwise appends the row. -/
def cp_insert (t : List ParticipantRow) (r : ParticipantRow) :
    Option (List ParticipantRow) :=
  if t.any fun p => p.conversation_id == r.conversation_id && p.user_id == r.user_id
  then none
  else some (t ++ [r])

/-- Number of rows of `t` carrying the participant pair `(c, u)`. -/
def pairCount (t : List ParticipantRow) (c u : Nat) : Nat :=
  (t.filter fun p => p.conversation_id == c && p.user_id == u).length

/-- Claim C4: Inserting a duplicate `(conversation, identity)` pair into
`conversation_participants` fails with the table unchanged, and a successful
insert preserves the invariant that every pair appears at most once. -/
theorem cp_insert_unique (t : List ParticipantRow) (r : ParticipantRow) :
    (0 < pairCount t r.conversation_id r.user_id → cp_insert t r = none) ∧
    (∀ t', cp_insert t r = some t' →
      ∀ c u, pairCount t c u ≤ 1 → pairCount t' c u ≤ 1) := by
  constructor
  · intro hdup
    have hany : (t.any fun p =>
        p.conversation_id == r.conversation_id && p.user_id == r.user_id) = true := by
      rw [List.any_eq_true]
      have hne : (t.filter fun p =>
          p.conversation_id == r.conversation_id && p.user_id == r.user_id) ≠ [] := by
        intro hnil
        simp [pairCount, hnil] at hdup
      obtain ⟨p, hp⟩ := List.exists_mem_of_ne_nil _ hne
      have hm := List.mem_filter.mp hp
      exact ⟨p, hm.1, hm.2⟩
    simp [cp_insert, hany]
  · intro t' ht' c u hle
    by_cases hany : (t.any fun p =>
        p.conversation_id == r.conversation_id && p.user_id == r.user_id) = true
    · simp [cp_insert, hany] at ht'
    · rw [Bool.not_eq_true] at hany
      have ht'' : t' = t ++ [r] := by
        have := ht'
        simp [cp_insert, hany] at this
        exact this.symm
      subst ht''
      rw [List.any_eq_false] at hany
      rw [pairCount, List.filter_append, List.length_append]
      by_cases hr : r.conversation_id = c ∧ r.user_id = u
      · obtain ⟨hc, hu⟩ := hr
        subst hc
        subst hu
        have hnil : (t.filter fun p =>
            p.conversation_id == r.conversation_id && p.user_id == r.user_id) = [] := by
          rw [List.filter_eq_nil_iff]
          intro p hp
          exact hany p hp
        simp [hnil]
      · have hpred : (r.conversation_id == c && r.user_id == u) = false := by
          by_contra hcon
          rw [Bool.not_eq_false, Bool.and_eq_true, beq_iff_eq, beq_iff_eq] at hcon
          exact hr hcon
        simp only [List.filter_cons, hpred, Bool.false_eq_true, if_false,
          List.filter_nil, List.length_nil, Nat.add_zero]
        simpa [pairCount] using hle

/-- Witness for `cp_insert_unique`: the pair (7, 1) is already present, so a
second insert of it is rejected; inserting (7, 2) into that table succeeds and
every pair still appears at most once. -/
theorem cp_insert_unique_witness :
    cp_insert [⟨7, 1⟩] ⟨7, 1⟩ = none ∧ pairCount [⟨7, 1⟩, ⟨7, 2⟩] 7 1 ≤ 1 := by
  constructor
  · exact (cp_insert_unique [⟨7, 1⟩] ⟨7, 1⟩).1 (by decide)
  · exact (cp_insert_unique [⟨7, 1⟩] ⟨7, 2⟩).2 [⟨7, 1⟩, ⟨7, 2⟩] (by decide) 7 1 (by decide)

/-- The client-supplied columns of a `messages` INSERT (id and created_at are
backend-generated defaults). -/
structure MessageInsert where
  conversation_id : Nat
  sender_id : Nat
  content : Option String := none
  image_url : Option String := none
  message_type : String := "text"
  deriving Repr, DecidableEq

/-- The message row inserted by `startVideoCall` when a video call begins:
content "Started a video call." with `message_type: 'call_info'`. -/
def startVideoCall_message (conv uid : Nat) : MessageInsert :=
  { conversation_id := conv, sender_id := uid,
    content := some "Started a video call.", message_type := "call_info" }

/-- Claim C3 evaluated on the code: The call-start notice inserted by `startVideoCall` carries
`message_type = "call_info"`, but the schema's CHECK constraint on
`messages.message_type` accepts only `'text'` and `'image'` and rejects it:
the insert attempted when a video call begins violates the constraint, so a
call-notice message cannot be stored. -/
theorem call_info_rejected_by_check (conv uid : Nat) :
    (startVideoCall_message conv uid).message_type = "call_info" ∧
    message_type_check (startVideoCall_message conv uid).message_type = false ∧
    message_type_check "text" = true ∧ message_type_check "image" = true := by
  refine ⟨rfl, ?_, by decide, by decide⟩
  show message_type_check "call_info" = false
  decide

/-- Five minutes in milliseconds, the presence window
(`Date.now() - 5 * 60 * 1000`). -/
def fiveMinutesMs : Int := 5 * 60 * 1000

/-- The row filter of `fetchOnlineUsers`: `.gte('last_seen', fiveMinutesAgo)`,
i.e. `last_seen ≥ now − 5 minutes`. -/
def onlineFilter (now last_seen : Int) : Bool :=
  decide (now - fiveMinutesMs ≤ last_seen)

/-- `fetchOnlineUsers`: the user ids of all profiles whose `last_seen` passes
the five-minute filter at time `now`. -/
def fetchOnlineUsers (now : Int) (profiles : List ProfileRow) : List Nat :=
  (profiles.filter fun p => onlineFilter now p.last_seen).map (·.user_id)

/-- `isUserOnline`: membership of a user id in the fetched online set. -/
def isUserOnline (online : List Nat) (userId : Nat) : Bool :=
  online.contains userId

/-- Claim C5: At time `now`, `isUserOnline` over `fetchOnlineUsers` reports a
user online iff some profile of theirs has `last_seen` at most five minutes
old (`now − last_seen ≤ 5 min`); in particular a `last_seen` four minutes old
passes the filter and one six minutes old does not. -/
theorem presence_window (now : Int) (profiles : List ProfileRow) (u : Nat) :
    (isUserOnline (fetchOnlineUsers now profiles) u = true ↔
      ∃ p ∈ profiles, p.user_id = u ∧ now - p.last_seen ≤ fiveMinutesMs) ∧
    onlineFilter now (now - 4 * 60 * 1000) = true ∧
    onlineFilter now (now - 6 * 60 * 1000) = false := by
  refine ⟨?_, ?_, ?_⟩
  · rw [isUserOnline, List.contains_eq_any_beq, List.any_eq_true]
    constructor
    · rintro ⟨x, hx, hbeq⟩
      rw [fetchOnlineUsers, List.mem_map] at hx
      obtain ⟨p, hpf, hpx⟩ := hx
      rw [List.mem_filter] at hpf
      refine ⟨p, hpf.1, ?_, ?_⟩
      · rw [hpx]
        exact (beq_iff_eq.mp hbeq).symm
      · have hfil := hpf.2
        simp only [onlineFilter, decide_eq_true_eq] at hfil
        omega
    · rintro ⟨p, hp, hu, hle⟩
      refine ⟨p.user_id, ?_, ?_⟩
      · rw [fetchOnlineUsers, List.mem_map]
        refine ⟨p, ?_, rfl⟩
        rw [List.mem_filter]
        refine ⟨hp, ?_⟩
        simp only [onlineFilter, decide_eq_true_eq]
        omega
      · rw [beq_iff_eq]
        exact hu.symm
  · simp only [onlineFilter, fiveMinutesMs, decide_eq_true_eq]
    omega
  · simp only [onlineFilter, fiveMinutesMs, decide_eq_false_iff_not]
    omega

/-- The realtime insert handler of `subscribeToMessages`: if a message with
the incoming id is already in the local list the list is returned unchanged,
otherwise the message is appended. -/
def handleMessageInsert (prevMessages : List MessageRow) (m : MessageRow) :
    List MessageRow :=
  if prevMessages.any fun msg => msg.id == m.id then prevMessages
  else prevMessages ++ [m]

/-- Claim C6: The insert handler de-duplicates by id: a message whose id is
already present leaves the list unchanged, a new one is appended exactly
once, and processing the same event twice equals processing it once
(idempotence), so a row arriving via both the direct insert response and the
realtime feed renders exactly one message. -/
theorem message_insert_idempotent (L : List MessageRow) (m : MessageRow) :
    handleMessageInsert (handleMessageInsert L m) m = handleMessageInsert L m ∧
    ((L.any fun x => x.id == m.id) = true → handleMessageInsert L m = L) ∧
    ((L.any fun x => x.id == m.id) = false →
      handleMessageInsert L m = L ++ [m] ∧
      ((handleMessageInsert L m).filter fun x => x.id == m.id).length = 1) := by
  by_cases hany : (L.any fun x => x.id == m.id) = true
  · refine ⟨?_, fun _ => by simp [handleMessageInsert, hany], fun hcon => ?_⟩
    · simp [handleMessageInsert, hany]
    · rw [hany] at hcon
      exact absurd hcon (by simp)
  · rw [Bool.not_eq_true] at hany
    have happ : handleMessageInsert L m = L ++ [m] := by
      simp [handleMessageInsert, hany]
    have hmem : ((L ++ [m]).any fun x => x.id == m.id) = true := by
      rw [List.any_eq_true]
      exact ⟨m, by simp, by simp⟩
    refine ⟨?_, fun hcon => by rw [hany] at hcon; exact absurd hcon (by simp), fun _ => ⟨happ, ?_⟩⟩
    · rw [happ]
      simp [handleMessageInsert, hmem]
    · rw [happ, List.filter_append]
      have hnil : (L.filter fun x => x.id == m.id) = [] := by
        rw [List.filter_eq_nil_iff]
        intro x hx
        have := List.any_eq_false.mp hany x hx
        simpa using this
      simp [hnil]

/-- Witness for `message_insert_idempotent`: delivering a fresh message to the
empty list renders it exactly once. -/
theorem message_insert_idempotent_witness :
    handleMessageInsert [] ⟨0, 7, 1, some "hi", none, "text", 0⟩ =
      [⟨0, 7, 1, some "hi", none, "text", 0⟩] ∧
    ((handleMessageInsert [] ⟨0, 7, 1, some "hi", none, "text", 0⟩).filter
      fun x => x.id == (0 : Nat)).length = 1 := by
  have h := (message_insert_idempotent [] ⟨0, 7, 1, some "hi", none, "text", 0⟩).2.2
    (by decide)
  exact ⟨by simpa using h.1, by simpa using h.2⟩

/-- The attributes of the selected file that `uploadImage` inspects:
`file.name`, `file.type` (MIME) and `file.size` in bytes. -/
structure FileMeta where
  name : String
  mimeType : String
  size : Nat
  deriving Repr, DecidableEq

/-- A network call made by `uploadImage`: the presence write that precedes the
upload, the storage upload, or the message insert. -/
inductive NetAction
  | presenceUpdate
  | storageUpload (bucket path : String)
  | messageInsert (m : MessageInsert)
  deriving Repr, DecidableEq

/-- `getPublicUrl`: the public object URL for a path in a bucket. -/
def getPublicUrl (bucket path : String) : String :=
  "/storage/v1/object/public/" ++ bucket ++ "/" ++ path

/-- The client-side MIME check `file.type.startsWith('image/')`, as a prefix
test on the character sequence of the MIME type. -/
def mimeTypeIsImage (mime : String) : Bool :=
  "image/".data.isPrefixOf mime.data

/-- `uploadImage`: reject the file client-side when its MIME type does not
start with `image/` or its size exceeds 10MB (10 * 1024 * 1024 bytes); a file
passing both checks triggers the presence write, a storage upload of
`uid/now.ext` into `chat-images`, and a `messages` insert of type
`image` carrying the uploaded file's public URL. Returns the network calls
performed and whether the upload proceeded. -/
def uploadImage (uid conv : Nat) (f : FileMeta) (nowMs : Nat) :
    List NetAction × Bool :=
  if !(mimeTypeIsImage f.mimeType) then ([], false)
  else if f.size > 10 * 1024 * 1024 then ([], false)
  else
    let fileExt := (f.name.splitOn ".").getLastD ""
    let fileName := toString uid ++ "/" ++ toString nowMs ++ "." ++ fileExt
    ([.presenceUpdate, .storageUpload "chat-images" fileName,
      .messageInsert { conversation_id := conv, sender_id := uid,
                       image_url := some (getPublicUrl "chat-images" fileName),
                       message_type := "image" }], true)

/-- Claim C7: `uploadImage` rejects a file with no network call at all when its
MIME type does not start with `image/` or its size exceeds 10MB; a file
passing both checks is uploaded and produces a `messages` insert of type
`image` whose `image_url` is the uploaded file's reference. -/
theorem upload_image_validation (uid conv : Nat) (f : FileMeta) (nowMs : Nat) :
    ((mimeTypeIsImage f.mimeType = false ∨ 10 * 1024 * 1024 < f.size) →
      uploadImage uid conv f nowMs = ([], false)) ∧
    (mimeTypeIsImage f.mimeType = true → f.size ≤ 10 * 1024 * 1024 →
      ∃ fn, uploadImage uid conv f nowMs =
        ([.presenceUpdate, .storageUpload "chat-images" fn,
          .messageInsert ⟨conv, uid, none, some (getPublicUrl "chat-images" fn),
            "image"⟩], true)) := by
  constructor
  · rintro (hmime | hsize)
    · simp [uploadImage, hmime]
    · rcases h : mimeTypeIsImage f.mimeType with _ | _
      · simp [uploadImage, h]
      · simp only [uploadImage, h, Bool.not_true, Bool.false_eq_true, if_false]
        rw [if_pos hsize]
  · intro hmime hsize
    refine ⟨toString uid ++ "/" ++ toString nowMs ++ "." ++
      (f.name.splitOn ".").getLastD "", ?_⟩
    simp only [uploadImage, hmime, Bool.not_true, Bool.false_eq_true, if_false]
    rw [if_neg (by omega)]

/-- Witness for `upload_image_validation`: an 11MB JPEG is rejected with no
network call; a 2MB JPEG named `photo.jpg` is uploaded and yields an
image-type message insert referencing the stored object. -/
theorem upload_image_validation_witness :
    uploadImage 1 7 ⟨"big.jpg", "image/jpeg", 11 * 1024 * 1024⟩ 99 = ([], false) ∧
    ∃ fn, uploadImage 1 7 ⟨"photo.jpg", "image/jpeg", 2 * 1024 * 1024⟩ 99 =
      ([.presenceUpdate, .storageUpload "chat-images" fn,
        .messageInsert ⟨7, 1, none, some (getPublicUrl "chat-images" fn),
          "image"⟩], true) := by
  constructor
  · exact (upload_image_validation 1 7 ⟨"big.jpg", "image/jpeg", 11 * 1024 * 1024⟩ 99).1
      (Or.inr (by norm_num))
  · exact (upload_image_validation 1 7 ⟨"photo.jpg", "image/jpeg", 2 * 1024 * 1024⟩ 99).2
      (by decide) (by norm_num)

/-- `createConversationWithUser`: insert the conversation row (name
`Chat with {display_name}`, non-group, created by the caller), then insert
the two participant rows. A backend failure of the participant insert is
injected through `participantInsertFails`; on failure the function throws to
its catch block (reporting failure) without any compensating delete, so the
already-inserted conversation row stays. Returns the resulting database and
whether the operation succeeded. -/
def createConversationWithUser (db : Db) (uid otherUid newConvId : Nat)
    (otherDisplayName : String) (participantInsertFails : Bool) : Db × Bool :=
  let conv : ConversationRow :=
    { id := newConvId, name := some ("Chat with " ++ otherDisplayName),
      is_group := false, created_by := uid }
  let db1 := { db with conversations := db.conversations ++ [conv] }
  if participantInsertFails then (db1, false)
  else ({ db1 with participants :=
            db1.participants ++ [⟨newConvId, uid⟩, ⟨newConvId, otherUid⟩] }, true)

/-- Claim C9: Conversation creation is not atomic with participant creation:
when the participant insert fails after the conversation row was created (the
new conversation id being fresh), the operation reports failure yet the
conversation row remains stored with no participant rows for it — no rollback
is performed. -/
theorem create_conversation_no_rollback (db : Db) (uid otherUid newConvId : Nat)
    (nm : String)
    (hfresh : ∀ p ∈ db.participants, p.conversation_id ≠ newConvId) :
    (createConversationWithUser db uid otherUid newConvId nm true).2 = false ∧
    (∃ c ∈ (createConversationWithUser db uid otherUid newConvId nm true).1.conversations,
      c.id = newConvId) ∧
    (∀ p ∈ (createConversationWithUser db uid otherUid newConvId nm true).1.participants,
      p.conversation_id ≠ newConvId) := by
  refine ⟨rfl, ?_, ?_⟩
  · exact ⟨⟨newConvId, some ("Chat with " ++ nm), false, uid⟩,
      by simp [createConversationWithUser], rfl⟩
  · intro p hp
    exact hfresh p (by simpa [createConversationWithUser] using hp)

/-- Witness for `create_conversation_no_rollback`: starting from the empty
database, a participant-insert failure leaves the new conversation row 7
stored, participant-less, with the operation reporting failure. -/
theorem create_conversation_no_rollback_witness :
    (createConversationWithUser ⟨[], [], [], []⟩ 1 2 7 "Bea" true).2 = false ∧
    (∃ c ∈ (createConversationWithUser ⟨[], [], [], []⟩ 1 2 7 "Bea" true).1.conversations,
      c.id = 7) ∧
    (∀ p ∈ (createConversationWithUser ⟨[], [], [], []⟩ 1 2 7 "Bea" true).1.participants,
      p.conversation_id ≠ 7) :=
  create_conversation_no_rollback ⟨[], [], [], []⟩ 1 2 7 "Bea"
    (by intro p hp; simp at hp)

/-- The participant fields `getConversationName` reads from a loaded
conversation: the participant's identity and display name (nullable in the
schema). -/
structure ProfileView where
  user_id : Nat
  display_name : Option String
  deriving Repr, DecidableEq

/-- The conversation fields `getConversationName` reads: stored name, group
flag and the loaded participant list. -/
structure ConversationView where
  name : Option String
  is_group : Bool
  participants : List ProfileView
  deriving Repr, DecidableEq

/-- JavaScript truthiness of a nullable string: false for null/undefined and
for the empty string. -/
def strTruthy : Option String → Bool
  | some s => !(s == "")
  | none => false

/-- `getConversationName`: return the stored name when it is truthy and the
conversation is a group; otherwise the display name of the first participant
whose identity differs from the viewer
(`otherParticipant?.display_name || 'Unknown User'`), falling back to
`"Unknown User"` when that lookup or its display name is falsy. -/
def getConversationName (viewerId : Nat) (conv : ConversationView) : String :=
  if strTruthy conv.name && conv.is_group then conv.name.getD ""
  else
    match conv.participants.find? fun p => !(p.user_id == viewerId) with
    | some p => if strTruthy p.display_name then p.display_name.getD ""
                else "Unknown User"
    | none => "Unknown User"

/-- Modelled from the claim's words, for comparison with the code: for a
non-group conversation the displayed title is the display name of the first
participant differing from the viewer, and `"Unknown User"` exactly when no
such participant is present in the loaded list. -/
def claimedNonGroupTitle (viewerId : Nat) (conv : ConversationView) : String :=
  match conv.participants.find? fun p => !(p.user_id == viewerId) with
  | some p => p.display_name.getD ""
  | none => "Unknown User"

/-- Counterexample to **C10** as stated: in a non-group conversation whose
other participant has the empty display name, the code renders
`"Unknown User"` while the claim prescribes that participant's display name
(the empty string). -/
theorem conversation_name_claim_false :
    getConversationName 0 ⟨some "Stored", false, [⟨0, some "Me"⟩, ⟨1, some ""⟩]⟩ ≠
      claimedNonGroupTitle 0 ⟨some "Stored", false, [⟨0, some "Me"⟩, ⟨1, some ""⟩]⟩ := by
  decide

/-- Claim C10, amended: For every non-group conversation the displayed title
ignores the stored name entirely; it is the display name of the first
participant whose identity differs from the viewer when such a participant
exists and their display name is non-null and non-empty, and the fallback
`"Unknown User"` otherwise (no other participant loaded, or a null or empty
display name). The stored name is used only for group conversations. -/
theorem conversation_name_non_group (viewerId : Nat) (c : ConversationView)
    (h : c.is_group = false) :
    (∀ nm, getConversationName viewerId { c with name := nm } =
      getConversationName viewerId c) ∧
    (∀ p, c.participants.find? (fun q => !(q.user_id == viewerId)) = some p →
      getConversationName viewerId c =
        if strTruthy p.display_name then p.display_name.getD ""
        else "Unknown User") ∧
    (c.participants.find? (fun q => !(q.user_id == viewerId)) = none →
      getConversationName viewerId c = "Unknown User") := by
  refine ⟨?_, ?_, ?_⟩
  · intro nm
    simp [getConversationName, h]
  · intro p hp
    simp [getConversationName, h, hp]
  · intro hp
    simp [getConversationName, h, hp]

/-- Witness for `conversation_name_non_group`: a non-group conversation with
no loaded participants besides the viewer renders `"Unknown User"`. -/
theorem conversation_name_non_group_witness :
    getConversationName 5 ⟨some "X", false, []⟩ = "Unknown User" :=
  (conversation_name_non_group 5 ⟨some "X", false, []⟩ rfl).2.2 rfl

end RealPulseFlow
